import Mathlib

/-!
Verification of the Buin Zoo animal-welfare dashboard front end.

The definitions below are a shallow embedding of the client-side logic of
the dashboard (`src/App/front/my-app/src/App.jsx`, `AuthContext.jsx` and the
second dashboard variant in `src/unnamed/part_000`): the HTTP wrapper with
its refresh-and-retry on 401, the alert/notification data hooks with their
optimistic acknowledge updates, the 7-day deviation-history aggregation,
the bar/line chart scaling arithmetic, and the auth session store.
Network responses, fetch scheduling and React state cells are modelled
explicitly; JS numbers are modelled as rationals.
-/

namespace BuinZoo

/-! ### HTTP client wrapper (getJSON / postJSON in App.jsx)

A single `fetch` either fails at the network level (the promise rejects) or
yields a response with an HTTP status and a body text.  `getJSON`/`postJSON`
issue the original request; on status 401 they POST `/auth/refresh` (its own
failure swallowed by `.catch(() => {})`) and re-issue the original request
once; any remaining non-2xx response throws `new Error(await res.text())`.
The environment fixes the outcome of the (at most two) attempts of the
original request and of the refresh POST. -/

inductive FetchOutcome where
  | netError : FetchOutcome
  | response (status : Nat) (body : String) : FetchOutcome
deriving DecidableEq, Repr

structure HttpEnv where
  first : FetchOutcome
  refresh : FetchOutcome
  second : FetchOutcome
deriving DecidableEq, Repr

/-- Requests observable on the wire: attempts of the original request and
the POST to `/auth/refresh`. -/
inductive ReqEvent where
  | original : ReqEvent
  | refreshPost : ReqEvent
deriving DecidableEq, Repr

inductive HttpResult where
  | ok (body : String) : HttpResult
  | httpError (body : String) : HttpResult
  | netFailure : HttpResult
deriving DecidableEq, Repr

/-- `res.ok` of the Fetch API: status in 200..299. -/
def statusOk (s : Nat) : Bool := 200 ≤ s && s ≤ 299

/-- Shared tail of both wrappers: after the (re)attempt `o` of the original
request, `if (!res.ok) throw new Error(await res.text()); return res.json()`. -/
def finishRequest (o : FetchOutcome) : HttpResult :=
  match o with
  | .netError => .netFailure
  | .response s b => if statusOk s then .ok b else .httpError b

/-- `getJSON` from App.jsx: first fetch; on status 401 a refresh POST
(outcome ignored) followed by exactly one retry; otherwise the first
response is final.  A network-level rejection propagates immediately. -/
def getJSON (env : HttpEnv) : List ReqEvent × HttpResult :=
  match env.first with
  | .netError => ([.original], .netFailure)
  | .response s b =>
    if s = 401 then
      ([.original, .refreshPost, .original], finishRequest env.second)
    else
      ([.original], if statusOk s then .ok b else .httpError b)

/-- `postJSON` from App.jsx: identical control flow to `getJSON` (the body
and headers differ, which the trace model does not distinguish). -/
def postJSON (env : HttpEnv) : List ReqEvent × HttpResult :=
  match env.first with
  | .netError => ([.original], .netFailure)
  | .response s b =>
    if s = 401 then
      ([.original, .refreshPost, .original], finishRequest env.second)
    else
      ([.original], if statusOk s then .ok b else .httpError b)

/-! ### Behaviors and notifications -/

/-- The fixed behavior taxonomy `BEHAVIORS` shared by backend and frontend. -/
def BEHAVIORS : List String :=
  ["Foraging", "Resting", "Locomotion", "Social", "Play", "Stereotypy"]

/-- One row of `/api/alerts` as consumed by `useAlerts`. -/
structure AlertRow where
  alert_id : String
  animal_id : Option String
  tipo : String
  severidad : String
  resumen : String
  estado : String
deriving DecidableEq, Repr

/-- A mapped notification held in `useAlerts` state (the locale-formatted
`time` field is omitted: it is presentation only). -/
structure Notification where
  id : String
  animal_id : Option String
  title : String
  body : String
  unread : Bool
deriving DecidableEq, Repr

/-- The row mapping inside `useAlerts.load`:
`unread: r.estado === "open"`, `body: r.resumen || r.tipo`. -/
def mapAlerts (rows : List AlertRow) : List Notification :=
  rows.map (fun r =>
    { id := r.alert_id
      animal_id := r.animal_id
      title := r.tipo ++ " (" ++ r.severidad ++ ")"
      body := if r.resumen = "" then r.tipo else r.resumen
      unread := r.estado = "open" })

/-! ### The alerts hook as a state machine (useAlerts in App.jsx)

`useAlerts` has no cancellation guard: `load` ends in an unconditional
`setNotifications(mapped)`.  The effect re-runs when `animalIdOrNull`
changes, starting a new `load`, but a still-pending `load` started under the
previous scope commits when it resolves.  Events: an effect run for a scope
(which starts a fetch), and the resolution of a fetch that was started under
some scope. -/

structure AlertsState where
  scope : Option String
  pending : List (Option String)
  notifications : List Notification
deriving DecidableEq, Repr

inductive AlertsEvent where
  | effectRun (scope : Option String) : AlertsEvent
  | resolve (scope : Option String) (rows : List AlertRow) : AlertsEvent
deriving DecidableEq, Repr

def alertsStep (s : AlertsState) (e : AlertsEvent) : AlertsState :=
  match e with
  | .effectRun sc => { s with scope := sc, pending := sc :: s.pending }
  | .resolve sc rows =>
    if sc ∈ s.pending then
      { s with pending := s.pending.erase sc, notifications := mapAlerts rows }
    else s

def alertsRun (s : AlertsState) (es : List AlertsEvent) : AlertsState :=
  es.foldl alertsStep s

def alertsInit : AlertsState := { scope := none, pending := [], notifications := [] }

/-! ### The timeline hook as a state machine (useBehaviorTimeline in App.jsx)

`useBehaviorTimeline` DOES guard commits: each effect run allocates a fresh
`let cancel = false` cell, the cleanup (run before the next effect run, i.e.
on scope change or unmount) sets it to `true`, and the fetch continuation
only calls `setRows` `if (!cancel)`.  Cells are modelled by generation
numbers: `activeGen` is the generation whose cell is still `false`,
`canceled` collects the generations whose cell was set to `true`.  On
success the continuation commits the rows (an array check maps non-arrays
to `[]`); on error it commits `[]` — both under the guard. -/

structure TimelineRow where
  hour : Nat
  behavior : String
deriving DecidableEq, Repr

structure TLState where
  activeGen : Option Nat
  nextGen : Nat
  canceled : List Nat
  pending : List Nat
  rows : List TimelineRow
deriving DecidableEq, Repr

inductive TLEvent where
  | effectRun (animalId : Option String) : TLEvent
  | resolve (gen : Nat) (outcome : Option (List TimelineRow)) : TLEvent
deriving DecidableEq, Repr

def tlStep (s : TLState) (e : TLEvent) : TLState :=
  match e with
  | .effectRun animalId =>
    -- cleanup of the previous run sets its cancel cell
    let canceled' := match s.activeGen with
      | some g => g :: s.canceled
      | none => s.canceled
    match animalId with
    | none =>
      -- `if (!animalId) { setRows([]); return; }` — no fetch started
      { s with activeGen := none, canceled := canceled', rows := [] }
    | some _ =>
      { s with activeGen := some s.nextGen, nextGen := s.nextGen + 1,
               canceled := canceled', pending := s.nextGen :: s.pending }
  | .resolve g outcome =>
    if g ∈ s.pending then
      { s with pending := s.pending.erase g,
               rows := if g ∈ s.canceled then s.rows else outcome.getD [] }
    else s

def tlRun (s : TLState) (es : List TLEvent) : TLState :=
  es.foldl tlStep s

/-! ### 7-day deviation history (useDeviationHistory in App.jsx)

Calendar dates are modelled as integers (days); the hook builds the window
`today − (6 − i)` for `i = 0..6`, fetches the day distribution for each date
with every failure caught to `null`, and maps each date to the per-category
deviation `actual − base` where `actual = dayData[b] || 0` (and `dayData`
is `{}` when the fetch failed) and `base = baselinePctMap[b] || 0`.
Percentage maps are association lists over the behavior names. -/

def lookupPct (m : List (String × ℚ)) (b : String) : ℚ := (m.lookup b).getD 0

structure DayEntry where
  date : Int
  values : List (String × ℚ)
deriving DecidableEq, Repr

def deviationDates (today : Int) : List Int :=
  (List.range 7).map (fun (i : Nat) => today - 6 + (i : Int))

/-- The body of the `dates.map` in `loadAll`: per-category deviation for one
date, `result = none` standing for a failed/missing fetch. -/
def processDay (baseline : List (String × ℚ)) (result : Option (List (String × ℚ))) :
    List (String × ℚ) :=
  BEHAVIORS.map (fun b => (b, lookupPct (result.getD []) b - lookupPct baseline b))

/-- `loadAll` of `useDeviationHistory`: the 7-entry series it commits via
`setHistory`, as a function of today's date, the per-date fetch results and
the baseline map. -/
def loadAll (today : Int) (results : Int → Option (List (String × ℚ)))
    (baseline : List (String × ℚ)) : List DayEntry :=
  (deviationDates today).map (fun d => ⟨d, processDay baseline (results d)⟩)

/-! ### Day-percentage mapping for the bar chart (chartPercents in App.jsx)

The day distribution fetched from `/api/behavior/day_distribution`, with its
two optional percentage maps.  `chartPercents` reads
`behavior_percentages_vs_baseline ?? behavior_percentages`; when neither is
present (or no distribution was fetched) it yields the six categories with
percentage 0. -/

structure DayDistribution where
  vs_baseline : Option (List (String × ℚ))
  percentages : Option (List (String × ℚ))
deriving DecidableEq, Repr

def chartPercents (dayDistribution : Option DayDistribution) : List (String × ℚ) :=
  let src := match dayDistribution with
    | none => none
    | some dd => match dd.vs_baseline with
      | some m => some m
      | none => dd.percentages
  match src with
  | none => BEHAVIORS.map (fun b => (b, 0))
  | some m => BEHAVIORS.map (fun b => (b, lookupPct m b))

/-- Modelled from the spec: `percentagesFromTimeline(timeline)` as §4.4
describes it — `count(category) / N * 100` per category over the N hourly
samples, and the empty result for the empty timeline.  No function of the
source computes this; it is stated here only to compare against
`chartPercents`, the source's actual day-percentage computation. -/
def percentagesFromTimelineSpec (timeline : List TimelineRow) : List (String × ℚ) :=
  if timeline = [] then []
  else
    BEHAVIORS.map (fun b =>
      (b, ((timeline.filter (fun r => r.behavior = b)).length : ℚ)
            / (timeline.length : ℚ) * 100))

/-! ### Acknowledge actions (markAllRead / ackAlert in App.jsx)

Both are modelled as the sequence of observable actions they perform plus
the local notification state after the optimistic update.  `markAllRead`
wraps the POST in try/catch/finally with `await reloadAlerts()` in the
`finally`; `ackAlert` has the POST and the reload inside one `try`, so a
rejected POST skips the reload (the catch only logs). -/

inductive AckAction where
  | optimistic : AckAction
  | postBulk (ids : List String) : AckAction
  | postAck (id : String) : AckAction
  | reloadCall : AckAction
deriving DecidableEq, Repr

def markAllRead (ns : List Notification) (postSucceeds : Bool) :
    List AckAction × List Notification :=
  let ids := (ns.filter (fun n => n.unread)).map (fun n => n.id)
  if ids.isEmpty then ([], ns)
  else
    let ns' := ns.map (fun n => { n with unread := false })
    let tryPart : List AckAction :=
      if postSucceeds then [.postBulk ids]  -- result logged
      else [.postBulk ids]                  -- rejection caught and logged
    (.optimistic :: (tryPart ++ [.reloadCall]), ns')

def ackAlert (ns : List Notification) (id : String) (postSucceeds : Bool) :
    List AckAction × List Notification :=
  let ns' := ns.map (fun n => if n.id = id then { n with unread := false } else n)
  if postSucceeds then
    ([.optimistic, .postAck id, .reloadCall], ns')
  else
    ([.optimistic, .postAck id], ns')

/-! ### Auth session store (AuthProvider in AuthContext.jsx)

Startup: `getJSON("/auth/me")`; on failure `postJSON("/auth/refresh")` then
`getJSON("/auth/me")` again inside a nested try whose catch sets the user to
null; `setChecking(false)` in the `finally`.  `logout` posts `/auth/logout`
with the failure swallowed and then unconditionally `setUser(null)`. -/

structure AuthEnv where
  meFirst : Option String
  refreshOk : Bool
  meSecond : Option String
deriving DecidableEq, Repr

inductive AuthAction where
  | getMe : AuthAction
  | postRefresh : AuthAction
  | postLogout : AuthAction
deriving DecidableEq, Repr

structure AuthState where
  user : Option String
  checking : Bool
deriving DecidableEq, Repr

def authInit (env : AuthEnv) : List AuthAction × AuthState :=
  match env.meFirst with
  | some u => ([.getMe], ⟨some u, false⟩)
  | none =>
    if env.refreshOk then
      match env.meSecond with
      | some u => ([.getMe, .postRefresh, .getMe], ⟨some u, false⟩)
      | none => ([.getMe, .postRefresh, .getMe], ⟨none, false⟩)
    else
      ([.getMe, .postRefresh], ⟨none, false⟩)

def authLogout (s : AuthState) (_logoutOk : Bool) : List AuthAction × AuthState :=
  ([.postLogout], ⟨none, s.checking⟩)

/-! ### Notification tray (NotificationTray in App.jsx)

When closed the tray renders nothing (`if (!open) return null`); when open
it renders `notifications.filter((n) => n.unread)`. -/

def trayItems (isOpen : Bool) (ns : List Notification) : List Notification :=
  if isOpen then ns.filter (fun n => n.unread) else []

/-! ### Deviation line chart scaling (BehaviorHistoryChart in App.jsx)

With the default geometry `height = 240`, `padding = 30` the plot height is
180.  The values are `d.values[selectedBehavior] || 0`; the half-range is
`max(5, 1.2 · max |v|)` and `sy` maps `[-maxAbs, maxAbs]` linearly onto the
plot.  `Math.max(...xs)` over the non-negative `|v|` equals a fold of `max`
with base 0. -/

def valuesFor (data : List DayEntry) (selectedBehavior : String) : List ℚ :=
  data.map (fun d => lookupPct d.values selectedBehavior)

def maxAbsData (data : List DayEntry) (selectedBehavior : String) : ℚ :=
  ((valuesFor data selectedBehavior).map (fun v => |v|)).foldr max 0

def maxAbs (data : List DayEntry) (selectedBehavior : String) : ℚ :=
  max 5 (maxAbsData data selectedBehavior * (6 / 5))

def syChart (m v : ℚ) : ℚ := 240 - 30 - ((v + m) / (2 * m)) * 180

/-! ### The part_000 variant of useBehaviorTimeline

The `src/unnamed/part_000` dashboard returns the fetched rows, but when the
rows state is empty it fabricates 24 hourly entries whose behavior is
`BEHAVIORS[(seed + h) % BEHAVIORS.length]` with `seed` the sum of the
character codes of `animalId || "seed"`.  The App.jsx variant returns the
rows state as is. -/

def seedOf (animalId : String) : Nat :=
  ((if animalId = "" then "seed" else animalId).data.map Char.toNat).sum

def fallbackTimeline (animalId : String) : List TimelineRow :=
  (List.range 24).map (fun h =>
    ⟨h, BEHAVIORS.getD ((seedOf animalId + h) % BEHAVIORS.length) ""⟩)

def timelinePart000 (animalId : String) (rows : List TimelineRow) : List TimelineRow :=
  if rows.length = 0 then fallbackTimeline animalId else rows

def timelineApp (rows : List TimelineRow) : List TimelineRow := rows

/-! ## Helper lemmas -/

/-- The two HTTP wrappers share one control flow. -/
theorem postJSON_eq_getJSON : postJSON = getJSON := rfl

theorem getJSON_netError (r sec : FetchOutcome) :
    getJSON ⟨.netError, r, sec⟩ = ([.original], .netFailure) := rfl

theorem getJSON_401 (r sec : FetchOutcome) (b : String) :
    getJSON ⟨.response 401 b, r, sec⟩
      = ([.original, .refreshPost, .original], finishRequest sec) := rfl

theorem getJSON_of_ne_401 (r sec : FetchOutcome) (s : Nat) (b : String) (h : s ≠ 401) :
    getJSON ⟨.response s b, r, sec⟩
      = ([.original], if statusOk s then .ok b else .httpError b) := by
  simp [getJSON, h]

theorem tlStep_canceled_mono (s : TLState) (e : TLEvent) (g : Nat) (h : g ∈ s.canceled) :
    g ∈ (tlStep s e).canceled := by
  cases e with
  | effectRun a =>
    cases a <;> cases ha : s.activeGen <;> simp [tlStep, ha] <;>
      first
        | exact h
        | exact Or.inr h
  | resolve g' o =>
    simp only [tlStep]
    split <;> exact h

theorem tlRun_canceled_mono (es : List TLEvent) (s : TLState) (g : Nat)
    (h : g ∈ s.canceled) : g ∈ (tlRun s es).canceled := by
  induction es generalizing s with
  | nil => exact h
  | cons e es ih => exact ih (tlStep s e) (tlStep_canceled_mono s e g h)

theorem tlStep_rows_of_canceled (s : TLState) (g : Nat) (o : Option (List TimelineRow))
    (h : g ∈ s.canceled) : (tlStep s (.resolve g o)).rows = s.rows := by
  simp only [tlStep]
  split
  · simp [h]
  · rfl

theorem tl_effectRun_cancels (s : TLState) (k : Option String) (g : Nat)
    (h : s.activeGen = some g) : g ∈ (tlStep s (.effectRun k)).canceled := by
  cases k <;> simp [tlStep, h]

theorem processDay_none (baseline : List (String × ℚ)) :
    processDay baseline none = BEHAVIORS.map (fun b => (b, -lookupPct baseline b)) := by
  simp [processDay, lookupPct]

theorem loadAll_getD (today : Int) (results : Int → Option (List (String × ℚ)))
    (baseline : List (String × ℚ)) (i : Nat) (h : i < 7) :
    (loadAll today results baseline).getD i ⟨0, []⟩
      = ⟨today - 6 + i, processDay baseline (results (today - 6 + i))⟩ := by
  unfold loadAll deviationDates
  rw [List.map_map, List.getD_eq_getElem?_getD, List.getElem?_map,
    List.getElem?_range h]
  rfl

theorem mem_le_foldr_max (l : List ℚ) (a : ℚ) (h : a ∈ l) : a ≤ l.foldr max 0 := by
  induction l with
  | nil => cases h
  | cons x xs ih =>
    rcases List.mem_cons.mp h with rfl | hx
    · exact le_max_left _ _
    · exact le_trans (ih hx) (le_max_right _ _)

theorem foldr_max_nonneg (l : List ℚ) : 0 ≤ l.foldr max 0 := by
  induction l with
  | nil => exact le_refl 0
  | cons x xs ih => exact le_trans ih (le_max_right _ _)

theorem maxAbsData_nonneg (data : List DayEntry) (sb : String) :
    0 ≤ maxAbsData data sb := foldr_max_nonneg _

theorem maxAbs_pos (data : List DayEntry) (sb : String) : 0 < maxAbs data sb :=
  lt_of_lt_of_le (by norm_num) (le_max_left 5 _)

theorem map_fst_pair (l : List String) (f : String → ℚ) :
    (l.map (fun b => (b, f b))).map Prod.fst = l := by
  induction l with
  | nil => rfl
  | cons x xs ih => simp [ih]

/-! ## Claims -/

/-- C1: for both HTTP wrappers a 401 first response triggers exactly one
refresh POST and exactly one retry of the original request; any other
non-2xx first response fails with the body text and is not retried; a 401
on the retry fails with the retry's body text; a network-level failure is
never retried; and no trace holds more than two attempts of the original
request or more than one refresh POST. -/
theorem C1_http_refresh_retry (env : HttpEnv) :
    (∀ b, env.first = .response 401 b →
      (getJSON env).1 = [.original, .refreshPost, .original] ∧
      (postJSON env).1 = [.original, .refreshPost, .original]) ∧
    (∀ s b, env.first = .response s b → s ≠ 401 → statusOk s = false →
      getJSON env = ([.original], .httpError b) ∧
      postJSON env = ([.original], .httpError b)) ∧
    (∀ b b', env.first = .response 401 b → env.second = .response 401 b' →
      (getJSON env).2 = .httpError b' ∧ (postJSON env).2 = .httpError b') ∧
    (env.first = .netError →
      getJSON env = ([.original], .netFailure) ∧
      postJSON env = ([.original], .netFailure)) ∧
    ((getJSON env).1.count .original ≤ 2 ∧
      (getJSON env).1.count .refreshPost ≤ 1 ∧
      (postJSON env).1.count .original ≤ 2 ∧
      (postJSON env).1.count .refreshPost ≤ 1) := by
  rw [postJSON_eq_getJSON]
  cases hf : env.first with
  | netError =>
    refine ⟨?_, ?_, ?_, ?_, ?_⟩
    · rintro b hb; cases hb
    · rintro s b hb; cases hb
    · rintro b b' hb; cases hb
    · intro _; exact ⟨by simp [getJSON, hf], by simp [getJSON, hf]⟩
    · refine ⟨?_, ?_, ?_, ?_⟩ <;> simp [getJSON, hf]
  | response s b =>
    by_cases h401 : s = 401
    · subst h401
      refine ⟨?_, ?_, ?_, ?_, ?_⟩
      · intro b' _
        exact ⟨by simp [getJSON, hf], by simp [getJSON, hf]⟩
      · intro s' b' hb hne _
        injection hb with h1 _
        exact absurd h1.symm hne
      · intro b' b'' hb hsec
        constructor <;> simp [getJSON, hf, hsec, finishRequest, statusOk]
      · intro hb; cases hb
      · refine ⟨?_, ?_, ?_, ?_⟩ <;> simp [getJSON, hf]
    · refine ⟨?_, ?_, ?_, ?_, ?_⟩
      · intro b' hb
        injection hb with h1 _
        exact absurd h1 h401
      · intro s' b' hb _ hok
        injection hb with h1 h2
        subst h1; subst h2
        constructor <;> simp [getJSON, hf, h401, hok]
      · intro b' b'' hb _
        injection hb with h1 _
        exact absurd h1 h401
      · intro hb; cases hb
      · refine ⟨?_, ?_, ?_, ?_⟩ <;> simp [getJSON, hf, h401]

/-- Witness for C1: a 401 first response, a refresh that itself fails at
the network level, and a second 401 on the retry surface the retry's body
as the error. -/
theorem C1_http_refresh_retry_witness :
    (getJSON ⟨.response 401 "expired", .netError, .response 401 "denied"⟩).2
      = .httpError "denied" :=
  ((C1_http_refresh_retry
      ⟨.response 401 "expired", .netError, .response 401 "denied"⟩).2.2.1
    "expired" "denied" rfl rfl).1

def rowA : AlertRow := ⟨"a1", some "A", "Fuga", "alta", "", "open"⟩

def rowB : AlertRow := ⟨"b1", some "B", "Apatia", "media", "", "open"⟩

/-- C2 is false for the alerts hook, which has no cancellation guard: a
load started while animal "A" was the scope and resolving after the scope
changed to "B" (and after "B"'s own load committed) overwrites the
notifications held for "B" with "A"'s rows. -/
theorem C2_counterexample :
    alertsRun alertsInit
        [.effectRun (some "A"), .effectRun (some "B"),
         .resolve (some "B") [rowB], .resolve (some "A") [rowA]]
      = { scope := some "B", pending := [], notifications := mapAlerts [rowA] } ∧
    mapAlerts [rowA] ≠ mapAlerts [rowB] := by
  exact ⟨rfl, by decide⟩

/-- C2 (amended): the current-behavior, timeline and day-distribution hooks
do discard stale results via their per-effect cancel flag: in the timeline
hook, a fetch whose generation was active before a scope-change effect run
never changes the rows when it later resolves, whatever happens in between;
the alerts and deviation-history hooks have no such guard. -/
theorem C2_timeline_stale_discarded (s : TLState) (k : Option String)
    (es : List TLEvent) (g : Nat) (o : Option (List TimelineRow))
    (h : s.activeGen = some g) :
    (tlStep (tlRun (tlStep s (.effectRun k)) es) (.resolve g o)).rows
      = (tlRun (tlStep s (.effectRun k)) es).rows :=
  tlStep_rows_of_canceled _ g o
    (tlRun_canceled_mono es _ g (tl_effectRun_cancels s k g h))

/-- Witness for the amended C2: a pending generation-0 fetch for the first
animal resolves after the scope switched and leaves the rows untouched. -/
theorem C2_timeline_stale_discarded_witness :
    (tlStep (tlRun (tlStep ⟨some 0, 1, [], [0], []⟩ (.effectRun (some "B"))) [])
        (.resolve 0 (some [⟨3, "Play"⟩]))).rows
      = (tlRun (tlStep ⟨some 0, 1, [], [0], []⟩ (.effectRun (some "B"))) []).rows :=
  C2_timeline_stale_discarded ⟨some 0, 1, [], [0], []⟩ (some "B") [] 0
    (some [⟨3, "Play"⟩]) rfl

/-- C3 is false: with baseline Resting = 50 and every fetch failing, the
oldest date's deviation for Resting is −50, not 0 — a failed date
contributes minus the baseline, not an all-zero row. -/
theorem C3_counterexample :
    ((loadAll 0 (fun _ => none) [("Resting", (50 : ℚ))]).getD 0 ⟨0, []⟩).values
      = [("Foraging", 0), ("Resting", -50), ("Locomotion", 0),
         ("Social", 0), ("Play", 0), ("Stereotypy", 0)] ∧
    ((-50 : ℚ) ≠ 0) := by
  constructor
  · rw [loadAll_getD 0 (fun _ => none) [("Resting", (50 : ℚ))] 0 (by norm_num)]
    show processDay [("Resting", (50 : ℚ))] none = _
    simp [processDay, lookupPct, BEHAVIORS, List.lookup]
  · norm_num

/-- C3 (amended): a date whose day-distribution fetch failed or returned no
data contributes the deviation 0 − baseline(b) = −baseline(b) for every
behavior category — all-zero only where the baseline is zero or absent —
and the date is still present, the series keeping its 7 entries. -/
theorem C3_failed_date_minus_baseline (today : Int)
    (results : Int → Option (List (String × ℚ))) (baseline : List (String × ℚ))
    (i : Nat) (h : i < 7) (hres : results (today - 6 + i) = none) :
    ((loadAll today results baseline).getD i ⟨0, []⟩).values
      = BEHAVIORS.map (fun b => (b, -lookupPct baseline b)) ∧
    (loadAll today results baseline).length = 7 := by
  constructor
  · rw [loadAll_getD today results baseline i h, hres]
    exact processDay_none baseline
  · simp [loadAll, deviationDates]

/-- Witness for the amended C3 at today = 10, a baseline of Resting = 50
and all fetches failing, on the middle date of the window. -/
theorem C3_failed_date_minus_baseline_witness :
    ((loadAll 10 (fun _ => none) [("Resting", (50 : ℚ))]).getD 3 ⟨0, []⟩).values
      = BEHAVIORS.map (fun b => (b, -lookupPct [("Resting", (50 : ℚ))] b)) ∧
    (loadAll 10 (fun _ => none) [("Resting", (50 : ℚ))]).length = 7 :=
  C3_failed_date_minus_baseline 10 (fun _ => none) [("Resting", (50 : ℚ))] 3
    (by norm_num) rfl

/-- C4: for every per-date result assignment (failures included) and every
baseline, the deviation history has exactly 7 entries and the i-th entry's
date is today − 6 + i — seven consecutive calendar dates ending today,
oldest first. -/
theorem C4_seven_consecutive_dates (today : Int)
    (results : Int → Option (List (String × ℚ))) (baseline : List (String × ℚ))
    (i : Nat) (h : i < 7) :
    (loadAll today results baseline).length = 7 ∧
    ((loadAll today results baseline).getD i ⟨0, []⟩).date = today - 6 + i := by
  refine ⟨by simp [loadAll, deviationDates], ?_⟩
  rw [loadAll_getD today results baseline i h]

/-- Witness for C4 at today = 0 with all fetches failing and an empty
baseline, on the newest date of the window. -/
theorem C4_seven_consecutive_dates_witness :
    (loadAll 0 (fun _ => none) []).length = 7 ∧
    ((loadAll 0 (fun _ => none) []).getD 6 ⟨0, []⟩).date = 0 - 6 + 6 :=
  C4_seven_consecutive_dates 0 (fun _ => none) [] 6 (by norm_num)

/-- C5 is false: with no day distribution available the client yields the
six fixed categories at 0 — a non-empty result — where the claim's
`percentagesFromTimeline` yields the empty result for the empty timeline;
the client's percentages are not computed from the hourly timeline at all. -/
theorem C5_counterexample :
    chartPercents none = BEHAVIORS.map (fun b => (b, 0)) ∧
    chartPercents none ≠ [] ∧
    (chartPercents none).length = 6 ∧
    percentagesFromTimelineSpec [] = [] := by
  refine ⟨rfl, ?_, rfl, rfl⟩
  simp [chartPercents, BEHAVIORS]

/-- C5 (amended): the client does not derive day percentages from the
timeline; `chartPercents` maps the backend day distribution
(`behavior_percentages_vs_baseline`, falling back to
`behavior_percentages`) onto the fixed six-category list, absent categories
becoming 0, and with no distribution it yields all six categories at 0 —
never an empty result. -/
theorem C5_chartPercents_passthrough :
    (∀ dd : Option DayDistribution, (chartPercents dd).map Prod.fst = BEHAVIORS) ∧
    (∀ m p, chartPercents (some ⟨some m, p⟩)
        = BEHAVIORS.map (fun b => (b, lookupPct m b))) ∧
    (∀ m, chartPercents (some ⟨none, some m⟩)
        = BEHAVIORS.map (fun b => (b, lookupPct m b))) ∧
    chartPercents (some ⟨none, none⟩) = BEHAVIORS.map (fun b => (b, 0)) ∧
    chartPercents none = BEHAVIORS.map (fun b => (b, 0)) := by
  refine ⟨?_, fun m p => rfl, fun m => rfl, rfl, rfl⟩
  rintro (_ | ⟨(_ | m), (_ | p)⟩) <;>
    exact map_fst_pair BEHAVIORS _

/-- C6 is false for `ackAlert`: when the acknowledge POST fails, the
reload is skipped, because both sit inside the same try block and the
catch only logs; so no reload is triggered on failure. -/
theorem C6_counterexample :
    AckAction.reloadCall
        ∉ (ackAlert [⟨"1", none, "Fuga (alta)", "Fuga", true⟩] "1" false).1 ∧
    (ackAlert [⟨"1", none, "Fuga (alta)", "Fuga", true⟩] "1" false).2
      = [⟨"1", none, "Fuga (alta)", "Fuga", false⟩] := by
  exact ⟨by decide, rfl⟩

/-- C6 (amended): both paths flip the affected alerts to read locally
before any network action; `markAllRead` then posts the bulk ack and —
success or failure — reloads (its reload sits in a `finally`); `ackAlert`
posts the single ack but reloads only when that request succeeds. -/
theorem C6_optimistic_ack (ns : List Notification) (id : String) (b : Bool)
    (h : (ns.filter fun n => n.unread) ≠ []) :
    (markAllRead ns b).1
      = [.optimistic,
         .postBulk ((ns.filter fun n => n.unread).map fun n => n.id),
         .reloadCall] ∧
    (markAllRead ns b).2 = ns.map (fun n => { n with unread := false }) ∧
    (ackAlert ns id b).1.head? = some .optimistic ∧
    (ackAlert ns id b).2
      = ns.map (fun n => if n.id = id then { n with unread := false } else n) ∧
    (AckAction.reloadCall ∈ (ackAlert ns id b).1 ↔ b = true) := by
  have hids : ((ns.filter fun n => n.unread).map fun n => n.id).isEmpty = false := by
    rcases hl : ns.filter (fun n => n.unread) with _ | ⟨x, xs⟩
    · exact absurd hl h
    · rw [hl]; rfl
  refine ⟨?_, ?_, ?_, ?_, ?_⟩
  · cases b <;> simp [markAllRead, hids]
  · cases b <;> simp [markAllRead, hids]
  · cases b <;> simp [ackAlert]
  · cases b <;> simp [ackAlert]
  · cases b <;> simp [ackAlert]

/-- Witness for the amended C6: with one unread alert and a failing POST,
`ackAlert` performs no reload. -/
theorem C6_optimistic_ack_witness :
    AckAction.reloadCall
        ∈ (ackAlert [⟨"1", none, "t", "b", true⟩] "1" false).1 ↔ false = true :=
  (C6_optimistic_ack [⟨"1", none, "t", "b", true⟩] "1" false (by decide)).2.2.2.2

/-- C7: at startup the auth store tries `/auth/me`; on failure it tries
`/auth/refresh` then `/auth/me` again; any further failure settles at the
anonymous state with checking over; and `logout` posts the logout request
(failure ignored) and unconditionally moves to anonymous. -/
theorem C7_auth_startup_logout :
    (∀ u r m, authInit ⟨some u, r, m⟩ = ([.getMe], ⟨some u, false⟩)) ∧
    (∀ u, authInit ⟨none, true, some u⟩
        = ([.getMe, .postRefresh, .getMe], ⟨some u, false⟩)) ∧
    authInit ⟨none, true, none⟩ = ([.getMe, .postRefresh, .getMe], ⟨none, false⟩) ∧
    (∀ m, authInit ⟨none, false, m⟩ = ([.getMe, .postRefresh], ⟨none, false⟩)) ∧
    (∀ env, (authInit env).2.checking = false) ∧
    (∀ s b, authLogout s b = ([.postLogout], ⟨none, s.checking⟩)) := by
  refine ⟨fun u r m => rfl, fun u => rfl, rfl, fun m => rfl, ?_, fun s b => rfl⟩
  rintro ⟨(_ | u), (_ | _), (_ | m)⟩ <;> rfl

/-- C8: the open notification tray renders exactly the unread
notifications — every rendered item is unread, and a read alert is never
rendered, whether the tray is open or closed. -/
theorem C8_tray_only_unread (isOpen : Bool) (ns : List Notification)
    (n : Notification) :
    (n ∈ trayItems isOpen ns → n.unread = true) ∧
    (n.unread = false → n ∉ trayItems isOpen ns) := by
  have key : n ∈ trayItems isOpen ns → n.unread = true := by
    intro hn
    cases isOpen
    · simp [trayItems] at hn
    · exact (List.mem_filter.mp (by simpa [trayItems] using hn)).2
  refine ⟨key, ?_⟩
  intro hf hn
  rw [key hn] at hf
  cases hf

/-- Witness for C8: a read alert is absent from the open tray even when it
is in the notification list. -/
theorem C8_tray_only_unread_witness :
    (⟨"1", none, "t", "b", false⟩ : Notification)
      ∉ trayItems true [⟨"1", none, "t", "b", false⟩] :=
  (C8_tray_only_unread true [⟨"1", none, "t", "b", false⟩]
    ⟨"1", none, "t", "b", false⟩).2 rfl

/-- C9: for a non-empty deviation data set and a selected behavior, the
line chart's half-range is max(5, 1.2·max|v|), hence at least 5; every
plotted value lies within the symmetric domain; the scale is symmetric
about zero; and every plotted point lands inside the padded plot area
(y between 30 and 210 with the default geometry). -/
theorem C9_history_chart_domain (data : List DayEntry) (sb : String)
    (_hne : data ≠ []) :
    5 ≤ maxAbs data sb ∧
    maxAbs data sb = max 5 ((6 / 5) * maxAbsData data sb) ∧
    (∀ v ∈ valuesFor data sb, |v| ≤ maxAbs data sb) ∧
    (∀ v : ℚ, syChart (maxAbs data sb) v + syChart (maxAbs data sb) (-v)
        = 2 * syChart (maxAbs data sb) 0) ∧
    (∀ v ∈ valuesFor data sb, 30 ≤ syChart (maxAbs data sb) v ∧
        syChart (maxAbs data sb) v ≤ 210) := by
  have hm5 : (5 : ℚ) ≤ maxAbs data sb := le_max_left _ _
  have hm0 : (0 : ℚ) < maxAbs data sb := maxAbs_pos data sb
  have habs : ∀ v ∈ valuesFor data sb, |v| ≤ maxAbs data sb := by
    intro v hv
    have h1 : |v| ≤ maxAbsData data sb :=
      mem_le_foldr_max _ _ (List.mem_map_of_mem (fun v => |v|) hv)
    have h2 : maxAbsData data sb ≤ maxAbsData data sb * (6 / 5) := by
      nlinarith [maxAbsData_nonneg data sb]
    exact le_trans (le_trans h1 h2) (le_max_right _ _)
  refine ⟨hm5, by rw [maxAbs, mul_comm], habs, ?_, ?_⟩
  · intro v
    have h2 : (2 * maxAbs data sb) ≠ 0 := by positivity
    unfold syChart
    field_simp
    ring
  · intro v hv
    obtain ⟨hvl, hvr⟩ := abs_le.mp (habs v hv)
    unfold syChart
    constructor
    · have ht1 : (v + maxAbs data sb) / (2 * maxAbs data sb) ≤ 1 := by
        rw [div_le_one (by linarith)]
        linarith
      nlinarith
    · have ht0 : 0 ≤ (v + maxAbs data sb) / (2 * maxAbs data sb) :=
        div_nonneg (by linarith) (by linarith)
      nlinarith

/-- Witness for C9 on a one-day data set with a Resting deviation of 10. -/
theorem C9_history_chart_domain_witness :
    5 ≤ maxAbs [⟨0, [("Resting", (10 : ℚ))]⟩] "Resting" :=
  (C9_history_chart_domain [⟨0, [("Resting", (10 : ℚ))]⟩] "Resting"
    (by simp)).1

/-- C10: the part_000 variant of the timeline hook never yields an empty
timeline — empty rows are replaced by a fabricated 24-entry timeline,
hours 0..23 in order, that depends on the animal id alone — while the
App.jsx variant returns the empty list in that case. -/
theorem C10_part000_fallback (animalId : String) (rows : List TimelineRow) :
    (rows = [] → timelinePart000 animalId rows = fallbackTimeline animalId) ∧
    (fallbackTimeline animalId).length = 24 ∧
    (fallbackTimeline animalId).map TimelineRow.hour = List.range 24 ∧
    timelinePart000 animalId rows ≠ [] ∧
    (rows = [] → timelineApp rows = []) := by
  refine ⟨?_, ?_, ?_, ?_, fun h => by rw [h]; rfl⟩
  · rintro rfl; rfl
  · simp [fallbackTimeline]
  · simp only [fallbackTimeline, List.map_map]
    exact List.map_id _
  · cases rows with
    | nil =>
      intro hcon
      have := congrArg List.length hcon
      simp [timelinePart000, fallbackTimeline] at this
    | cons x xs => simp [timelinePart000]

/-- Witness for C10 with animal id "A" and an empty fetched row set. -/
theorem C10_part000_fallback_witness :
    timelinePart000 "A" [] = fallbackTimeline "A" :=
  (C10_part000_fallback "A" []).1 rfl

end BuinZoo
